import Mathlib

/-!
Verification of the signal-generation core of a retail-trading dashboard.

The Python source (indicators.py, patterns.py, signals.py,
portfolio_manager.py) is shallowly embedded here: prices are exact
rationals, pandas columns that can hold NaN become `Option ℚ`, Python's
`int()` truncation and `//` floor division become explicit integer
operations, and functions that can raise return `Option`.
-/

/-- Exponential smoothing with `adjust=False` semantics, as produced by
pandas `Series.ewm(span, adjust=False).mean()`:
`y[0] = x[0]`, `y[i] = x[i]*α + y[i-1]*(1-α)`. -/
def ewm (α : ℚ) : List ℚ → List ℚ
  | [] => []
  | p :: ps => List.scanl (fun e x => x * α + e * (1 - α)) p ps

/-- `calculate_ema` from indicators.py: `series.ewm(span=period, adjust=False).mean()`
with smoothing factor `α = 2/(period+1)`. -/
def calculate_ema (series : List ℚ) (period : ℕ) : List ℚ :=
  ewm (2 / (period + 1)) series

/-- Gain of one bar-to-bar delta: the positive part, as in
`delta.where(delta > 0, 0.0)`. -/
def pairGain (a b : ℚ) : ℚ := if 0 < b - a then b - a else 0

/-- Loss of one bar-to-bar delta: the sign-flipped negative part, as in
`(-delta).where(delta < 0, 0.0)`. -/
def pairLoss (a b : ℚ) : ℚ := if b - a < 0 then a - b else 0

/-- Per-bar gains of a price list. Pandas `diff()` leaves NaN at index 0,
and `where(delta > 0, 0.0)` turns that NaN into `0.0`, so the head is 0. -/
def gains : List ℚ → List ℚ
  | [] => []
  | p :: ps => 0 :: List.zipWith pairGain (p :: ps) ps

/-- Per-bar losses of a price list; head is 0 for the same reason as `gains`. -/
def losses : List ℚ → List ℚ
  | [] => []
  | p :: ps => 0 :: List.zipWith pairLoss (p :: ps) ps

/-- One entry of `rsi = 100 - (100 / (1 + rs))` with `rs = avg_gain / avg_loss`,
with the IEEE-754 behaviour of the float code made explicit: when
`avg_loss = 0` the float quotient `rs` is `±inf` for `avg_gain ≠ 0`, which
makes `100 - 100/(1+rs)` collapse to `100`, and is NaN for `avg_gain = 0`,
which propagates (modelled as `none`). -/
def rsiCombine (g l : ℚ) : Option ℚ :=
  if l = 0 then (if g = 0 then none else some 100)
  else some (100 - 100 / (1 + g / l))

/-- `calculate_rsi` from indicators.py: smooth gains and losses with
`ewm(span=period, adjust=False)` and combine entry-wise. -/
def calculate_rsi (series : List ℚ) (period : ℕ) : List (Option ℚ) :=
  List.zipWith rsiCombine
    (ewm (2 / (period + 1)) (gains series))
    (ewm (2 / (period + 1)) (losses series))

/-- One OHLC bar together with the per-bar derived columns the signal
pipeline reads. Columns that can hold NaN in the DataFrame are `Option ℚ`;
the pattern columns hold the label strings written by `detect_patterns`. -/
structure Bar where
  open_price : ℚ
  high : ℚ
  low : ℚ
  close : ℚ
  ema_20 : Option ℚ
  ema_200 : Option ℚ
  rsi : Option ℚ
  ema_20_distance : Option ℚ
  pin_bar : String
  engulfing : String
deriving DecidableEq, Repr

/-- The candle-geometry dictionary of `calculate_candle_metrics`. -/
structure CandleMetrics where
  body : ℚ
  upper_wick : ℚ
  lower_wick : ℚ
  total_range : ℚ
  is_bullish : Bool
  is_bearish : Bool
deriving DecidableEq, Repr

/-- `calculate_candle_metrics` from patterns.py. -/
def calculate_candle_metrics (row : Bar) : CandleMetrics :=
  { body := |row.close - row.open_price|
    upper_wick := row.high - max row.open_price row.close
    lower_wick := min row.open_price row.close - row.low
    total_range := row.high - row.low
    is_bullish := decide (row.close > row.open_price)
    is_bearish := decide (row.close < row.open_price) }

/-- `is_pin_bar` from patterns.py: a zero body is never a pin bar; a
bullish pin needs a lower wick at least `wick_ratio` bodies long and an
upper wick under half a body; a bearish pin is the mirror. -/
def is_pin_bar (row : Bar) ( wick_ratio : ℚ) : Bool × String :=
  let metrics := calculate_candle_metrics row
  if metrics.body = 0 then (false, "none")
  else if metrics.lower_wick ≥ metrics.body * wick_ratio ∧
          metrics.upper_wick < metrics.body * (1 / 2) then (true, "bullish_pin")
  else if metrics.upper_wick ≥ metrics.body * wick_ratio ∧
          metrics.lower_wick < metrics.body * (1 / 2) then (true, "bearish_pin")
  else (false, "none")

/-- `is_engulfing` from patterns.py: the current body must strictly change
direction against the previous bar and its body range must contain the
previous body range. -/
def is_engulfing (current previous : Bar) : Bool × String :=
  let curr_body_high := max current.open_price current.close
  let curr_body_low := min current.open_price current.close
  let prev_body_high := max previous.open_price previous.close
  let prev_body_low := min previous.open_price previous.close
  if previous.close < previous.open_price ∧ current.close > current.open_price ∧
     curr_body_low ≤ prev_body_low ∧ curr_body_high ≥ prev_body_high then
    (true, "bullish_engulfing")
  else if previous.close > previous.open_price ∧ current.close < current.open_price ∧
     curr_body_low ≤ prev_body_low ∧ curr_body_high ≥ prev_body_high then
    (true, "bearish_engulfing")
  else (false, "none")

/-- Python `int()` applied to a real number: truncation toward zero. -/
def pyInt (q : ℚ) : ℤ := if 0 ≤ q then ⌊q⌋ else ⌈q⌉

/-- `calculate_position_size` from portfolio_manager.py: the 2%-rule
recommended share count. -/
def calculate_position_size
    (account_balance risk_percent entry_price stop_loss_price : ℚ) : ℤ :=
  if entry_price ≤ stop_loss_price then 0
  else
    if entry_price - stop_loss_price ≤ 0 then 0
    else max 0 (pyInt (account_balance * risk_percent / (entry_price - stop_loss_price)))

/-- `calculate_max_shares` from portfolio_manager.py. Python `//` is floor
division (`Int.fdiv`); a zero lot-size `unit` makes `max_shares // unit`
raise `ZeroDivisionError` once the `price <= 0` guard has been passed,
which is modelled as `none`. -/
def calculate_max_shares (cash price : ℚ) (unit : ℤ) : Option ℤ :=
  if price ≤ 0 then some 0
  else if unit = 0 then none
  else some (Int.fdiv (pyInt (cash / price)) unit * unit)

namespace TrendState

/-- `TrendState.UPTREND` from signals.py. -/
def UPTREND : String := "上昇トレンド"

/-- `TrendState.DOWNTREND` from signals.py. -/
def DOWNTREND : String := "下落トレンド"

/-- `TrendState.NEUTRAL` from signals.py. -/
def NEUTRAL : String := "レンジ"

end TrendState

namespace SignalType

/-- `SignalType.LONG` from signals.py. -/
def LONG : String := "買いシグナル"

/-- `SignalType.SHORT` from signals.py. -/
def SHORT : String := "売りシグナル"

/-- `SignalType.NONE` from signals.py. -/
def NONE : String := "様子見"

end SignalType

/-- `analyze_trend` from signals.py: classify the latest bar's close
against its `ema_200`. An empty frame or an undefined `ema_200` yields
`NEUTRAL`. -/
def analyze_trend (df : List Bar) : String :=
  match df.getLast? with
  | none => TrendState.NEUTRAL
  | some latest =>
    match latest.ema_200 with
    | none => TrendState.NEUTRAL
    | some e =>
      if latest.close > e then TrendState.UPTREND
      else if latest.close < e then TrendState.DOWNTREND
      else TrendState.NEUTRAL

/-- The risk/reward dictionary returned by `calculate_risk_reward`. -/
structure RiskReward where
  entry : ℚ
  stop_loss : ℚ
  take_profit : ℚ
  risk : ℚ
  reward : ℚ
  rr_ratio : ℚ
deriving DecidableEq, Repr

/-- Minimum of a list of rationals, `none` on the empty list
(pandas `Series.min()` yields NaN there). -/
def listMin : List ℚ → Option ℚ
  | [] => none
  | x :: rest =>
    match listMin rest with
    | none => some x
    | some m => some (min x m)

/-- Maximum of a list of rationals, `none` on the empty list. -/
def listMax : List ℚ → Option ℚ
  | [] => none
  | x :: rest =>
    match listMax rest with
    | none => some x
    | some m => some (max x m)

/-- The trailing window `df.tail(lookback)` after the clamp
`if len(df) < lookback: lookback = len(df)`. -/
def recentWindow (df : List Bar) (lookback : ℕ) : List Bar :=
  df.drop (df.length - (if df.length < lookback then df.length else lookback))

/-- `calculate_risk_reward` from signals.py. The `dict` it builds stores
the absolute risk and reward but computes `take_profit` from the signed
risk. An empty frame would make `df.iloc[-1]` raise (`none` here); an
empty trailing window would make `min()`/`max()` yield NaN (`none`). -/
def calculate_risk_reward (df : List Bar) (is_long : Bool) (lookback : ℕ)
    ( rr_ratio : ℚ) : Option RiskReward :=
  match df.getLast? with
  | none => none
  | some latest =>
    if is_long then
      match listMin ((recentWindow df lookback).map (fun b => b.low)) with
      | none => none
      | some stop_loss =>
          some ⟨latest.close, stop_loss,
                latest.close + (latest.close - stop_loss) * rr_ratio,
                |latest.close - stop_loss|,
                |(latest.close - stop_loss) * rr_ratio|, rr_ratio⟩
    else
      match listMax ((recentWindow df lookback).map (fun b => b.high)) with
      | none => none
      | some stop_loss =>
          some ⟨latest.close, stop_loss,
                latest.close - (stop_loss - latest.close) * rr_ratio,
                |stop_loss - latest.close|,
                |(stop_loss - latest.close) * rr_ratio|, rr_ratio⟩

/-- `is_near_ema20` from indicators.py: `abs(row['ema_20_distance']) <= threshold`.
A NaN distance compares false, as NaN comparisons do in pandas. -/
def is_near_ema20 (row : Bar) (threshold : ℚ) : Bool :=
  match row.ema_20_distance with
  | none => false
  | some d => decide (|d| ≤ threshold)

/-- `check_setup` from signals.py: pullback to the 20-EMA band (threshold
1.0%) or RSI exhaustion; a NaN RSI contributes `False`. -/
def check_setup (row : Bar) (is_long : Bool) : Bool :=
  if is_long then
    is_near_ema20 row 1 || (match row.rsi with
      | none => false
      | some r => decide (r < 40))
  else
    is_near_ema20 row 1 || (match row.rsi with
      | none => false
      | some r => decide (r > 60))

/-- `check_trigger` from signals.py: the confirming candle pattern and its
Japanese description. -/
def check_trigger (row : Bar) (is_long : Bool) : Bool × String :=
  if is_long then
    if row.pin_bar = "bullish_pin" then (true, "下ヒゲピンバー")
    else if row.engulfing = "bullish_engulfing" then (true, "陽線包み足")
    else (false, "")
  else
    if row.pin_bar = "bearish_pin" then (true, "上ヒゲピンバー")
    else if row.engulfing = "bearish_engulfing" then (true, "陰線包み足")
    else (false, "")

/-- `check_environment` from signals.py: `(long_env, short_env, trend_desc)`. -/
def check_environment (df_main df_higher : List Bar) : Bool × Bool × String :=
  (decide (analyze_trend df_main = TrendState.UPTREND) &&
     decide (analyze_trend df_higher = TrendState.UPTREND),
   decide (analyze_trend df_main = TrendState.DOWNTREND) &&
     decide (analyze_trend df_higher = TrendState.DOWNTREND),
   "メイン足: " ++ analyze_trend df_main ++ " / 上位足: " ++ analyze_trend df_higher)

/-- The result dictionary of `generate_signal`. -/
structure SignalResult where
  signal : String
  trend : String
  setup : Bool
  trigger : String
  risk_reward : Option RiskReward
  current_state : String
  details : List String
deriving DecidableEq, Repr

/-- `generate_signal` from signals.py: the three-stage
environment → setup → trigger pipeline, mirrored branch by branch. Each
branch value is the state of the Python `result` dict at the
corresponding `return`. -/
def generate_signal (df_main df_higher : List Bar) : SignalResult :=
  if df_main = [] ∨ df_higher = [] then
    ⟨SignalType.NONE, "", false, "", none, "様子見", []⟩
  else
    match df_main.getLast? with
    | none =>
        ⟨SignalType.NONE, (check_environment df_main df_higher).2.2, false, "",
         none, "様子見", []⟩
    | some current =>
      if (check_environment df_main df_higher).1 then
        if check_setup current true then
          if (check_trigger current true).1 then
            ⟨SignalType.LONG, (check_environment df_main df_higher).2.2, true,
             (check_trigger current true).2,
             calculate_risk_reward df_main true 10 2, "🟢 買いシグナル点灯",
             ["✓ 上昇トレンド環境", "✓ 押し目ゾーン（20EMA付近 or RSI<40）",
              "✓ トリガー発生: " ++ (check_trigger current true).2]⟩
          else
            ⟨SignalType.NONE, (check_environment df_main df_higher).2.2, true, "",
             none, "押し目待ち",
             ["✓ 上昇トレンド環境", "✓ 押し目ゾーン（20EMA付近 or RSI<40）"]⟩
        else
          ⟨SignalType.NONE, (check_environment df_main df_higher).2.2, false, "",
           none, "様子見", ["✓ 上昇トレンド環境"]⟩
      else if (check_environment df_main df_higher).2.1 then
        if check_setup current false then
          if (check_trigger current false).1 then
            ⟨SignalType.SHORT, (check_environment df_main df_higher).2.2, true,
             (check_trigger current false).2,
             calculate_risk_reward df_main false 10 2, "🔴 売りシグナル点灯",
             ["✓ 下落トレンド環境", "✓ 戻りゾーン（20EMA付近 or RSI>60）",
              "✓ トリガー発生: " ++ (check_trigger current false).2]⟩
          else
            ⟨SignalType.NONE, (check_environment df_main df_higher).2.2, true, "",
             none, "戻り待ち",
             ["✓ 下落トレンド環境", "✓ 戻りゾーン（20EMA付近 or RSI>60）"]⟩
        else
          ⟨SignalType.NONE, (check_environment df_main df_higher).2.2, false, "",
           none, "様子見", ["✓ 下落トレンド環境"]⟩
      else
        ⟨SignalType.NONE, (check_environment df_main df_higher).2.2, false, "",
         none, "様子見", ["△ トレンド不明確（様子見）"]⟩

lemma scanl_step_const (α c : ℚ) (m : ℕ) :
    List.scanl (fun e x => x * α + e * (1 - α)) c (List.replicate m c) =
      List.replicate (m + 1) c := by
  induction m with
  | zero => simp
  | succ k ih =>
      rw [List.replicate_succ, List.scanl]
      have hc : c * α + c * (1 - α) = c := by ring
      rw [hc, ih, ← List.replicate_succ]

lemma ewm_replicate (α c : ℚ) (n : ℕ) :
    ewm α (List.replicate n c) = List.replicate n c := by
  cases n with
  | zero => rfl
  | succ m =>
      rw [List.replicate_succ]
      show List.scanl _ c (List.replicate m c) = _
      rw [scanl_step_const, List.replicate_succ]

/-- C9: EMA of a constant series is that constant at every bar. The
embedded `calculate_ema` follows the recursion `ema[0]=price[0]`,
`ema[i]=price[i]*α + ema[i-1]*(1-α)` with `α = 2/(period+1)`; applied to
`replicate n c` it returns `replicate n c` for every length and every
valid period (pandas requires span ≥ 1). -/
theorem calculate_ema_const (c : ℚ) (n period : ℕ) (_hp : 1 ≤ period) :
    calculate_ema (List.replicate n c) period = List.replicate n c := by
  unfold calculate_ema
  exact ewm_replicate _ c n

/-- Witness for C9 at `c = 7`, `n = 5`, `period = 20`. -/
theorem calculate_ema_const_witness :
    calculate_ema (List.replicate 5 (7 : ℚ)) 20 = List.replicate 5 (7 : ℚ) :=
  calculate_ema_const 7 5 20 (by decide)

lemma zip_pairLoss_lt : ∀ (ps : List ℚ) (p : ℚ), List.Chain' (· < ·) (p :: ps) →
    List.zipWith pairLoss (p :: ps) ps = List.replicate ps.length 0 := by
  intro ps
  induction ps with
  | nil => intro p _; rfl
  | cons q rest ih =>
      intro p h
      rw [List.chain'_cons] at h
      show pairLoss p q :: List.zipWith pairLoss (q :: rest) rest = _
      rw [ih q h.2]
      have hz : pairLoss p q = 0 := by
        unfold pairLoss
        have hnot : ¬ (q - p < 0) := by linarith [h.1]
        simp [hnot]
      rw [hz, List.length_cons, List.replicate_succ]

lemma zip_pairGain_gt : ∀ (ps : List ℚ) (p : ℚ), List.Chain' (· > ·) (p :: ps) →
    List.zipWith pairGain (p :: ps) ps = List.replicate ps.length 0 := by
  intro ps
  induction ps with
  | nil => intro p _; rfl
  | cons q rest ih =>
      intro p h
      rw [List.chain'_cons] at h
      show pairGain p q :: List.zipWith pairGain (q :: rest) rest = _
      rw [ih q h.2]
      have hz : pairGain p q = 0 := by
        unfold pairGain
        have hnot : ¬ (0 < q - p) := by
          have : q < p := h.1
          linarith
        simp [hnot]
      rw [hz, List.length_cons, List.replicate_succ]

lemma losses_chain_lt (ps : List ℚ) (h : List.Chain' (· < ·) ps) :
    losses ps = List.replicate ps.length 0 := by
  cases ps with
  | nil => rfl
  | cons p rest =>
      show 0 :: List.zipWith pairLoss (p :: rest) rest = _
      rw [zip_pairLoss_lt rest p h, List.length_cons, List.replicate_succ]

lemma gains_chain_gt (ps : List ℚ) (h : List.Chain' (· > ·) ps) :
    gains ps = List.replicate ps.length 0 := by
  cases ps with
  | nil => rfl
  | cons p rest =>
      show 0 :: List.zipWith pairGain (p :: rest) rest = _
      rw [zip_pairGain_gt rest p h, List.length_cons, List.replicate_succ]

lemma rsiCombine_zero_right (g : ℚ) :
    rsiCombine g 0 = none ∨ rsiCombine g 0 = some 100 := by
  unfold rsiCombine
  by_cases hg : g = 0 <;> simp [hg]

lemma rsiCombine_zero_left (l : ℚ) :
    rsiCombine 0 l = none ∨ rsiCombine 0 l = some 0 := by
  unfold rsiCombine
  by_cases hl : l = 0
  · simp [hl]
  · right
    simp [hl]

lemma mem_zipWith_right_zero : ∀ (as : List ℚ) (n : ℕ) (x : Option ℚ),
    x ∈ List.zipWith rsiCombine as (List.replicate n 0) →
    x = none ∨ x = some 100 := by
  intro as
  induction as with
  | nil => intro n x hx; simp at hx
  | cons a as ih =>
      intro n x hx
      cases n with
      | zero => simp at hx
      | succ m =>
          rw [List.replicate_succ, List.zipWith_cons_cons] at hx
          rcases List.mem_cons.mp hx with h | h
          · rw [h]; exact rsiCombine_zero_right a
          · exact ih m x h

lemma mem_zipWith_left_zero : ∀ (bs : List ℚ) (n : ℕ) (x : Option ℚ),
    x ∈ List.zipWith rsiCombine (List.replicate n 0) bs →
    x = none ∨ x = some 0 := by
  intro bs
  induction bs with
  | nil => intro n x hx; simp at hx
  | cons b bs ih =>
      intro n x hx
      cases n with
      | zero => simp at hx
      | succ m =>
          rw [List.replicate_succ, List.zipWith_cons_cons] at hx
          rcases List.mem_cons.mp hx with h | h
          · rw [h]; exact rsiCombine_zero_left b
          · exact ih m x h

/-- C2: for a strictly increasing price series every defined RSI entry
equals 100 (so RSI never exceeds 100 and tends to 100); for a strictly
decreasing series every defined entry equals 0 (never below 0, tends
to 0). Undefined entries (`none`) are the NaN produced by `0/0` when
both smoothed averages are zero (notably index 0); when the smoothed
loss is zero and the gain nonzero the value is exactly 100, not
NaN or infinity. -/
theorem calculate_rsi_strict_monotone (ps : List ℚ) (period : ℕ) (_hp : 1 ≤ period) :
    (List.Chain' (· < ·) ps → ∀ x ∈ calculate_rsi ps period, x = none ∨ x = some 100) ∧
    (List.Chain' (· > ·) ps → ∀ x ∈ calculate_rsi ps period, x = none ∨ x = some 0) := by
  constructor
  · intro h x hx
    unfold calculate_rsi at hx
    rw [losses_chain_lt ps h, ewm_replicate] at hx
    exact mem_zipWith_right_zero _ _ x hx
  · intro h x hx
    unfold calculate_rsi at hx
    rw [gains_chain_gt ps h, ewm_replicate] at hx
    exact mem_zipWith_left_zero _ _ x hx

/-- Witness for C2 on the strictly increasing series `[1,2,3]` and the
strictly decreasing series `[3,2,1]` at the default period 14. -/
theorem calculate_rsi_strict_monotone_witness :
    ((some 100 : Option ℚ) = none ∨ (some 100 : Option ℚ) = some 100) ∧
    ((some 0 : Option ℚ) = none ∨ (some 0 : Option ℚ) = some 0) :=
  ⟨(calculate_rsi_strict_monotone [1, 2, 3] 14 (by decide)).1
      (by norm_num [List.chain'_cons]) (some 100)
      (by norm_num [calculate_rsi, gains, losses, pairGain, pairLoss, ewm,
        List.scanl, rsiCombine]),
   (calculate_rsi_strict_monotone [3, 2, 1] 14 (by decide)).2
      (by norm_num [List.chain'_cons]) (some 0)
      (by norm_num [calculate_rsi, gains, losses, pairGain, pairLoss, ewm,
        List.scanl, rsiCombine])⟩

/-- C7: a bar whose body is zero (`open = close`, which covers the fully
degenerate `open = high = low = close` bar) is never classified as a
bullish or bearish pin bar, for any wick ratio, and never as the current
bar of a bullish or bearish engulfing pattern. -/
theorem zero_body_never_pattern (row : Bar) ( wick_ratio : ℚ)
    (h : row.open_price = row.close) :
    is_pin_bar row wick_ratio = (false, "none") ∧
    (∀ previous : Bar, is_engulfing row previous = (false, "none")) := by
  constructor
  · unfold is_pin_bar
    have hb : (calculate_candle_metrics row).body = 0 := by
      unfold calculate_candle_metrics
      simp [h]
    rw [if_pos hb]
  · intro previous
    unfold is_engulfing
    have h1 : ¬ (row.close > row.open_price) := by rw [h]; exact lt_irrefl _
    have h2 : ¬ (row.close < row.open_price) := by rw [h]; exact lt_irrefl _
    simp only [h1, h2, false_and, and_false, if_false]

/-- Witness for C7 at the bar with `open = high = low = close = 5` and
wick ratio 2. -/
theorem zero_body_never_pattern_witness :
    is_pin_bar ⟨5, 5, 5, 5, none, none, none, none, "none", "none"⟩ 2 =
      (false, "none") ∧
    (∀ previous : Bar,
      is_engulfing ⟨5, 5, 5, 5, none, none, none, none, "none", "none"⟩ previous =
        (false, "none")) :=
  zero_body_never_pattern ⟨5, 5, 5, 5, none, none, none, none, "none", "none"⟩ 2 rfl

/-- C3 counterexample: at `balance = -1000, risk_fraction = 1/50,
entry = 100, stop = 90` the code clamps to 0 while the claimed
`floor(balance*risk_fraction/(entry-stop))` is `-2`, so the claim's
floor formula does not hold for every balance. -/
theorem calculate_position_size_floor_cex :
    calculate_position_size (-1000) (1 / 50) 100 90 = 0 ∧
    ⌊((-1000 : ℚ) * (1 / 50)) / ((100 : ℚ) - 90)⌋ = -2 ∧
    calculate_position_size (-1000) (1 / 50) 100 90 ≠
      ⌊((-1000 : ℚ) * (1 / 50)) / ((100 : ℚ) - 90)⌋ := by
  have hval : (-1000 : ℚ) * (1 / 50) / ((100 : ℚ) - 90) = -2 := by norm_num
  have hceil : ⌈(-2 : ℚ)⌉ = -2 := by
    rw [Int.ceil_eq_iff]
    norm_num
  have hres : calculate_position_size (-1000) (1 / 50) 100 90 = 0 := by
    unfold calculate_position_size pyInt
    rw [if_neg (by norm_num : ¬ (100 : ℚ) ≤ 90),
        if_neg (by norm_num : ¬ (100 : ℚ) - 90 ≤ 0), hval,
        if_neg (by norm_num : ¬ (0 : ℚ) ≤ -2), hceil]
    decide
  refine ⟨hres, by norm_num, ?_⟩
  rw [hres, hval]
  norm_num

/-- C3 (amended): whenever the risked amount `balance*risk_fraction` is
nonnegative and `entry > stop`, the result is exactly
`floor(balance*risk_fraction/(entry-stop))`; the result is always ≥ 0;
and it is 0 whenever `entry ≤ stop` (including `entry = stop`). -/
theorem calculate_position_size_spec
    (account_balance risk_percent entry_price stop_loss_price : ℚ) :
    (0 ≤ account_balance * risk_percent → stop_loss_price < entry_price →
      calculate_position_size account_balance risk_percent entry_price stop_loss_price =
        ⌊account_balance * risk_percent / (entry_price - stop_loss_price)⌋) ∧
    0 ≤ calculate_position_size account_balance risk_percent entry_price stop_loss_price ∧
    (entry_price ≤ stop_loss_price →
      calculate_position_size account_balance risk_percent entry_price stop_loss_price = 0) := by
  refine ⟨?_, ?_, ?_⟩
  · intro hnn hlt
    unfold calculate_position_size
    rw [if_neg (not_le.mpr hlt)]
    have hpos : (0 : ℚ) < entry_price - stop_loss_price := sub_pos.mpr hlt
    rw [if_neg (not_le.mpr hpos)]
    have hq : 0 ≤ account_balance * risk_percent / (entry_price - stop_loss_price) :=
      div_nonneg hnn (le_of_lt hpos)
    unfold pyInt
    rw [if_pos hq]
    exact max_eq_right (Int.floor_nonneg.mpr hq)
  · unfold calculate_position_size
    split
    · exact le_refl 0
    · split
      · exact le_refl 0
      · exact le_max_left 0 _
  · intro h
    unfold calculate_position_size
    rw [if_pos h]

/-- Witness for C3 (amended): the spec's example
`balance = 1,000,000, risk_fraction = 0.02, entry = stop = 100` gives 0,
and with `stop = 90` the floor formula gives 2000 shares. -/
theorem calculate_position_size_spec_witness :
    calculate_position_size 1000000 (1 / 50) 100 100 = 0 ∧
    calculate_position_size 1000000 (1 / 50) 100 90 = 2000 := by
  constructor
  · exact (calculate_position_size_spec 1000000 (1 / 50) 100 100).2.2 (by norm_num)
  · have h := (calculate_position_size_spec 1000000 (1 / 50) 100 90).1
      (by norm_num) (by norm_num)
    rw [h]
    norm_num

/-- C10 counterexample: at `cash = -5, price = 2, unit = 1` the code's
`int(cash/price)` truncates toward zero giving `-2`, while the claimed
`floor(cash/price)` is `-3`, so the floor formula does not hold for
every cash amount. -/
theorem calculate_max_shares_floor_cex :
    calculate_max_shares (-5) 2 1 = some (-2) ∧
    Int.fdiv ⌊(-5 : ℚ) / 2⌋ 1 * 1 = -3 ∧
    calculate_max_shares (-5) 2 1 ≠ some (Int.fdiv ⌊(-5 : ℚ) / 2⌋ 1 * 1) := by
  have hceil : ⌈(-5 : ℚ) / 2⌉ = -2 := by
    rw [Int.ceil_eq_iff]
    norm_num
  have hfloor : ⌊(-5 : ℚ) / 2⌋ = -3 := by norm_num
  have hres : calculate_max_shares (-5) 2 1 = some (-2) := by
    unfold calculate_max_shares pyInt
    rw [if_neg (by norm_num : ¬ (2 : ℚ) ≤ 0),
        if_neg (by decide : ¬ (1 : ℤ) = 0),
        if_neg (by norm_num : ¬ (0 : ℚ) ≤ -5 / 2), hceil]
    decide
  refine ⟨hres, ?_, ?_⟩
  · rw [hfloor]
    decide
  · rw [hres, hfloor]
    decide

/-- C10 (amended): for every nonzero lot size, `calculate_max_shares`
returns 0 whenever `price ≤ 0` instead of raising; when `price > 0` it
returns `(trunc(cash/price) // unit) * unit`, always a multiple of
`unit`; and for `cash ≥ 0` the truncation coincides with the claimed
floor. (With `unit = 0` and `price > 0` the code raises
`ZeroDivisionError`, modelled as `none`.) -/
theorem calculate_max_shares_spec (cash price : ℚ) (unit : ℤ) (hu : unit ≠ 0) :
    (price ≤ 0 → calculate_max_shares cash price unit = some 0) ∧
    (0 < price →
      calculate_max_shares cash price unit =
        some (Int.fdiv (pyInt (cash / price)) unit * unit) ∧
      ∃ k : ℤ, Int.fdiv (pyInt (cash / price)) unit * unit = unit * k) ∧
    (0 ≤ cash → 0 < price → pyInt (cash / price) = ⌊cash / price⌋) := by
  refine ⟨?_, ?_, ?_⟩
  · intro h
    unfold calculate_max_shares
    rw [if_pos h]
  · intro hp
    constructor
    · unfold calculate_max_shares
      rw [if_neg (not_le.mpr hp), if_neg hu]
    · exact ⟨Int.fdiv (pyInt (cash / price)) unit, mul_comm _ _⟩
  · intro hc hp
    unfold pyInt
    rw [if_pos (div_nonneg hc (le_of_lt hp))]

/-- Witness for C10 (amended) at `cash = 1000, price = 3, unit = 100`:
`int(1000/3) = 333` rounds down to 3 whole lots of 100 shares. -/
theorem calculate_max_shares_spec_witness :
    calculate_max_shares 1000 3 100 = some 300 := by
  have h := ((calculate_max_shares_spec 1000 3 100 (by norm_num)).2.1 (by norm_num)).1
  rw [h]
  norm_num [pyInt]
  rfl

/-- C6: `analyze_trend` looks only at the latest bar (its value on `df`
equals its value on the singleton `[latest]`), returns `NEUTRAL` on an
empty series or an undefined `ema_200`, `UPTREND` when `close > ema_200`,
`DOWNTREND` when `close < ema_200`, and `NEUTRAL` on exact equality; being
a total function it raises nothing. -/
theorem analyze_trend_spec (df : List Bar) :
    (df = [] → analyze_trend df = TrendState.NEUTRAL) ∧
    (∀ latest : Bar, df.getLast? = some latest →
      analyze_trend df = analyze_trend [latest] ∧
      (latest.ema_200 = none → analyze_trend df = TrendState.NEUTRAL) ∧
      (∀ e : ℚ, latest.ema_200 = some e →
        (e < latest.close → analyze_trend df = TrendState.UPTREND) ∧
        (latest.close < e → analyze_trend df = TrendState.DOWNTREND) ∧
        (latest.close = e → analyze_trend df = TrendState.NEUTRAL))) := by
  constructor
  · intro h
    rw [h]
    rfl
  · intro latest h
    have hdf : analyze_trend df =
        (match latest.ema_200 with
         | none => TrendState.NEUTRAL
         | some e =>
           if latest.close > e then TrendState.UPTREND
           else if latest.close < e then TrendState.DOWNTREND
           else TrendState.NEUTRAL) := by
      unfold analyze_trend
      rw [h]
    refine ⟨?_, ?_, ?_⟩
    · rw [hdf]
      rfl
    · intro hnone
      rw [hdf, hnone]
    · intro e he
      rw [hdf, he]
      refine ⟨?_, ?_, ?_⟩
      · intro hlt
        simp only [if_pos hlt]
      · intro hlt
        have hngt : ¬ (latest.close > e) := not_lt.mpr (le_of_lt hlt)
        simp only [if_neg hngt, if_pos hlt]
      · intro heq
        have hngt : ¬ (latest.close > e) := by rw [heq]; exact lt_irrefl e
        have hnlt : ¬ (latest.close < e) := by rw [heq]; exact lt_irrefl e
        simp only [if_neg hngt, if_neg hnlt]

/-- Witness for C6 on three one-bar series: close 100 above `ema_200` 90,
close 100 below `ema_200` 110, and `ema_200` undefined. -/
theorem analyze_trend_spec_witness :
    analyze_trend [⟨100, 101, 99, 100, none, some 90, none, none, "none", "none"⟩] =
      TrendState.UPTREND ∧
    analyze_trend [⟨100, 101, 99, 100, none, some 110, none, none, "none", "none"⟩] =
      TrendState.DOWNTREND ∧
    analyze_trend [⟨100, 101, 99, 100, none, none, none, none, "none", "none"⟩] =
      TrendState.NEUTRAL :=
  ⟨(((analyze_trend_spec
        [⟨100, 101, 99, 100, none, some 90, none, none, "none", "none"⟩]).2
      ⟨100, 101, 99, 100, none, some 90, none, none, "none", "none"⟩
      rfl).2.2 90 rfl).1 (by norm_num),
   (((analyze_trend_spec
        [⟨100, 101, 99, 100, none, some 110, none, none, "none", "none"⟩]).2
      ⟨100, 101, 99, 100, none, some 110, none, none, "none", "none"⟩
      rfl).2.2 110 rfl).2.1 (by norm_num),
   ((analyze_trend_spec
        [⟨100, 101, 99, 100, none, none, none, none, "none", "none"⟩]).2
      ⟨100, 101, 99, 100, none, none, none, none, "none", "none"⟩
      rfl).2.1 rfl⟩

lemma listMin_of_ne_nil (l : List ℚ) (h : l ≠ []) : ∃ m, listMin l = some m := by
  cases l with
  | nil => exact absurd rfl h
  | cons x rest =>
      unfold listMin
      cases listMin rest with
      | none => exact ⟨x, rfl⟩
      | some m => exact ⟨min x m, rfl⟩

lemma listMin_mem : ∀ (l : List ℚ) (m : ℚ), listMin l = some m → m ∈ l := by
  intro l
  induction l with
  | nil => intro m hm; cases hm
  | cons x rest ih =>
      intro m hm
      unfold listMin at hm
      cases hr : listMin rest with
      | none =>
          rw [hr] at hm
          cases hm
          exact List.mem_cons_self x rest
      | some m' =>
          rw [hr] at hm
          cases hm
          rcases min_choice x m' with hc | hc
          · rw [hc]
            exact List.mem_cons_self x rest
          · rw [hc]
            exact List.mem_cons_of_mem x (ih m' hr)

lemma listMin_le : ∀ (l : List ℚ) (m : ℚ), listMin l = some m → ∀ y ∈ l, m ≤ y := by
  intro l
  induction l with
  | nil => intro m hm; cases hm
  | cons x rest ih =>
      intro m hm y hy
      unfold listMin at hm
      cases hr : listMin rest with
      | none =>
          rw [hr] at hm
          cases hm
          have : rest = [] := by
            cases rest with
            | nil => rfl
            | cons z zs =>
                exfalso
                obtain ⟨w, hw⟩ := listMin_of_ne_nil (z :: zs) (List.cons_ne_nil z zs)
                rw [hw] at hr
                cases hr
          rw [this] at hy
          rcases List.mem_singleton.mp hy with h
          rw [h]
      | some m' =>
          rw [hr] at hm
          cases hm
          rcases List.mem_cons.mp hy with h | h
          · rw [h]
            exact min_le_left x m'
          · exact le_trans (min_le_right x m') (ih m' hr y h)

lemma recentWindow_ne_nil (df : List Bar) (lookback : ℕ)
    (hdf : df ≠ []) (hlb : 1 ≤ lookback) : recentWindow df lookback ≠ [] := by
  have hL : 0 < df.length := List.length_pos.mpr hdf
  intro hcontra
  have hlen := congrArg List.length hcontra
  rw [recentWindow, List.length_drop, List.length_nil] at hlen
  by_cases hc : df.length < lookback
  · rw [if_pos hc] at hlen
    omega
  · rw [if_neg hc] at hlen
    omega

lemma recentWindow_getLast (df : List Bar) (lookback : ℕ)
    (h : recentWindow df lookback ≠ []) :
    (recentWindow df lookback).getLast? = df.getLast? := by
  unfold recentWindow at h ⊢
  conv_rhs => rw [← List.take_append_drop
    (df.length - (if df.length < lookback then df.length else lookback)) df]
  exact (List.getLast?_append_of_ne_nil _ h).symm

lemma calculate_risk_reward_long_spec (df : List Bar) (lookback : ℕ) ( q : ℚ)
    (latest : Bar) (hlast : df.getLast? = some latest) (hlb : 1 ≤ lookback) :
    ∃ rr : RiskReward,
      calculate_risk_reward df true lookback q = some rr ∧
      rr.entry = latest.close ∧
      rr.stop_loss ∈ (recentWindow df lookback).map (fun b => b.low) ∧
      (∀ x ∈ (recentWindow df lookback).map (fun b => b.low), rr.stop_loss ≤ x) ∧
      rr.take_profit = rr.entry + (rr.entry - rr.stop_loss) * q ∧
      rr.risk = |rr.entry - rr.stop_loss| ∧
      rr.stop_loss ≤ latest.low := by
  have hdf : df ≠ [] := by
    intro hnil
    rw [hnil] at hlast
    cases hlast
  have hne := recentWindow_ne_nil df lookback hdf hlb
  have hmapne : (recentWindow df lookback).map (fun b => b.low) ≠ [] := by
    intro hcontra
    exact hne (List.map_eq_nil_iff.mp hcontra)
  obtain ⟨m, hm⟩ := listMin_of_ne_nil _ hmapne
  have hlatmem : latest ∈ recentWindow df lookback := by
    apply List.mem_of_mem_getLast?
    rw [recentWindow_getLast df lookback hne, hlast]
    rfl
  refine ⟨⟨latest.close, m, latest.close + (latest.close - m) * q,
      |latest.close - m|, |(latest.close - m) * q|, q⟩, ?_, rfl, ?_, ?_, rfl, rfl, ?_⟩
  · unfold calculate_risk_reward
    rw [hlast]
    simp [hm]
  · exact listMin_mem _ m hm
  · exact listMin_le _ m hm
  · exact listMin_le _ m hm latest.low (List.mem_map_of_mem (fun b => b.low) hlatmem)

/-- C4: for every non-empty series, at the default lookback 10 the long
risk/reward has `entry` the latest close, `stop_loss` the minimum of the
lows over the trailing window (it belongs to the window lows and bounds
them below), `risk = entry - stop_loss`, and
`take_profit = entry + risk * ratio`; the last bar's `low ≤ close`
invariant of valid OHLC data is assumed so that the stored absolute risk
coincides with `entry - stop_loss`. -/
theorem calculate_risk_reward_long_window (df : List Bar) ( q : ℚ) (latest : Bar)
    (hlast : df.getLast? = some latest) (hwf : latest.low ≤ latest.close) :
    ∃ rr : RiskReward,
      calculate_risk_reward df true 10 q = some rr ∧
      rr.entry = latest.close ∧
      rr.stop_loss ∈ (recentWindow df 10).map (fun b => b.low) ∧
      (∀ x ∈ (recentWindow df 10).map (fun b => b.low), rr.stop_loss ≤ x) ∧
      rr.risk = rr.entry - rr.stop_loss ∧
      rr.take_profit = rr.entry + rr.risk * q := by
  obtain ⟨rr, h1, h2, h3, h4, h5, h6, h7⟩ :=
    calculate_risk_reward_long_spec df 10 q latest hlast (by norm_num)
  have hstop : rr.stop_loss ≤ rr.entry := by
    rw [h2]
    exact le_trans h7 hwf
  have hrisk : rr.risk = rr.entry - rr.stop_loss := by
    rw [h6]
    exact abs_of_nonneg (by linarith)
  refine ⟨rr, h1, h2, h3, h4, hrisk, ?_⟩
  rw [hrisk]
  exact h5

/-- Witness for C4: on a three-bar series with window lows `[92, 90, 95]`
and latest close 100, the long risk/reward at ratio 2 is
`stop_loss = 90, risk = 10, take_profit = 120`. -/
theorem calculate_risk_reward_long_window_witness :
    ∃ rr : RiskReward,
      calculate_risk_reward
        [⟨93, 95, 92, 94, none, none, none, none, "none", "none"⟩,
         ⟨94, 96, 90, 95, none, none, none, none, "none", "none"⟩,
         ⟨96, 101, 95, 100, none, none, none, none, "none", "none"⟩] true 10 2 =
        some rr ∧
      rr.entry = 100 ∧ rr.stop_loss = 90 ∧ rr.risk = 10 ∧ rr.take_profit = 120 := by
  obtain ⟨rr, h1, h2, h3, h4, h5, h6⟩ :=
    calculate_risk_reward_long_window
      [⟨93, 95, 92, 94, none, none, none, none, "none", "none"⟩,
       ⟨94, 96, 90, 95, none, none, none, none, "none", "none"⟩,
       ⟨96, 101, 95, 100, none, none, none, none, "none", "none"⟩] 2
      ⟨96, 101, 95, 100, none, none, none, none, "none", "none"⟩ rfl (by norm_num)
  have hentry : rr.entry = 100 := h2
  have hlows :
      (recentWindow
        [⟨93, 95, 92, 94, none, none, none, none, "none", "none"⟩,
         ⟨94, 96, 90, 95, none, none, none, none, "none", "none"⟩,
         ⟨96, 101, 95, 100, none, none, none, none, "none", "none"⟩] 10).map
        (fun b => b.low) = [92, 90, 95] := by
    simp [recentWindow]
  rw [hlows] at h3 h4
  have hb := h4 90 (by simp)
  have hstop : rr.stop_loss = 90 := by
    rcases List.mem_cons.mp h3 with h | h3
    · exfalso
      rw [h] at hb
      norm_num at hb
    rcases List.mem_cons.mp h3 with h | h3
    · exact h
    rcases List.mem_cons.mp h3 with h | h3
    · exfalso
      rw [h] at hb
      norm_num at hb
    · simp at h3
  have hrisk : rr.risk = 10 := by
    rw [h5, hentry, hstop]
    norm_num
  refine ⟨rr, h1, hentry, hstop, hrisk, ?_⟩
  rw [h6, hentry, hrisk]
  norm_num

lemma analyze_trend_match (df : List Bar) (b : Bar) (hb : df.getLast? = some b) :
    analyze_trend df =
      (match b.ema_200 with
       | none => TrendState.NEUTRAL
       | some e =>
         if b.close > e then TrendState.UPTREND
         else if b.close < e then TrendState.DOWNTREND
         else TrendState.NEUTRAL) := by
  unfold analyze_trend
  rw [hb]

lemma analyze_trend_up (df : List Bar) (b : Bar) (e : ℚ)
    (hb : df.getLast? = some b) (he : b.ema_200 = some e) (hup : e < b.close) :
    analyze_trend df = TrendState.UPTREND := by
  rw [analyze_trend_match df b hb]
  simp only [he]
  exact if_pos hup

lemma analyze_trend_down (df : List Bar) (b : Bar) (e : ℚ)
    (hb : df.getLast? = some b) (he : b.ema_200 = some e) (hdown : b.close < e) :
    analyze_trend df = TrendState.DOWNTREND := by
  rw [analyze_trend_match df b hb]
  simp only [he]
  have hngt : ¬ (b.close > e) := not_lt.mpr (le_of_lt hdown)
  rw [if_neg hngt]
  exact if_pos hdown

lemma getLast_of_ne_nil {α : Type} (l : List α) (h : l ≠ []) :
    ∃ a, l.getLast? = some a := by
  cases hx : l.getLast? with
  | none => exact absurd (List.getLast?_eq_none_iff.mp hx) h
  | some a => exact ⟨a, rfl⟩

/-- C8: when either input series is empty, `generate_signal` returns the
untouched initial result: signal `NONE`, empty trend text, `setup = false`,
empty trigger, no risk/reward, state "様子見", empty narrative — and, being
a total function, raises nothing. -/
theorem generate_signal_empty (df_main df_higher : List Bar)
    (h : df_main = [] ∨ df_higher = []) :
    generate_signal df_main df_higher =
      ⟨SignalType.NONE, "", false, "", none, "様子見", []⟩ := by
  unfold generate_signal
  rw [if_pos h]

/-- Witness for C8 at `df_main = []` with a non-empty higher series. -/
theorem generate_signal_empty_witness :
    generate_signal [] [⟨100, 101, 99, 100, none, some 90, none, none, "none", "none"⟩] =
      ⟨SignalType.NONE, "", false, "", none, "様子見", []⟩ :=
  generate_signal_empty [] [⟨100, 101, 99, 100, none, some 90, none, none, "none", "none"⟩]
    (Or.inl rfl)

lemma generate_signal_unfold (df_main df_higher : List Bar) (current : Bar)
    (hl : df_main.getLast? = some current) (hh : df_higher ≠ []) :
    generate_signal df_main df_higher =
      (if (check_environment df_main df_higher).1 then
        if check_setup current true then
          if (check_trigger current true).1 then
            ⟨SignalType.LONG, (check_environment df_main df_higher).2.2, true,
             (check_trigger current true).2,
             calculate_risk_reward df_main true 10 2, "🟢 買いシグナル点灯",
             ["✓ 上昇トレンド環境", "✓ 押し目ゾーン（20EMA付近 or RSI<40）",
              "✓ トリガー発生: " ++ (check_trigger current true).2]⟩
          else
            ⟨SignalType.NONE, (check_environment df_main df_higher).2.2, true, "",
             none, "押し目待ち",
             ["✓ 上昇トレンド環境", "✓ 押し目ゾーン（20EMA付近 or RSI<40）"]⟩
        else
          ⟨SignalType.NONE, (check_environment df_main df_higher).2.2, false, "",
           none, "様子見", ["✓ 上昇トレンド環境"]⟩
      else if (check_environment df_main df_higher).2.1 then
        if check_setup current false then
          if (check_trigger current false).1 then
            ⟨SignalType.SHORT, (check_environment df_main df_higher).2.2, true,
             (check_trigger current false).2,
             calculate_risk_reward df_main false 10 2, "🔴 売りシグナル点灯",
             ["✓ 下落トレンド環境", "✓ 戻りゾーン（20EMA付近 or RSI>60）",
              "✓ トリガー発生: " ++ (check_trigger current false).2]⟩
          else
            ⟨SignalType.NONE, (check_environment df_main df_higher).2.2, true, "",
             none, "戻り待ち",
             ["✓ 下落トレンド環境", "✓ 戻りゾーン（20EMA付近 or RSI>60）"]⟩
        else
          ⟨SignalType.NONE, (check_environment df_main df_higher).2.2, false, "",
           none, "様子見", ["✓ 下落トレンド環境"]⟩
      else
        ⟨SignalType.NONE, (check_environment df_main df_higher).2.2, false, "",
         none, "様子見", ["△ トレンド不明確（様子見）"]⟩) := by
  have hm : df_main ≠ [] := by
    intro h0
    rw [h0] at hl
    cases hl
  have hcond : ¬ (df_main = [] ∨ df_higher = []) := by
    rintro (h0 | h0)
    · exact hm h0
    · exact hh h0
  unfold generate_signal
  rw [if_neg hcond, hl]

/-- C5: the narrative contract of the three-stage pipeline, for non-empty
inputs with latest main bar `current`. When the two trends do not agree
(not both uptrend and not both downtrend, e.g. one neutral or opposing),
`generate_signal` returns signal `NONE` with `setup = false`, no
risk/reward, and a narrative that is exactly the single environment-stage
line. In general the narrative contains exactly the checkmark lines of
the stages that passed and stops appending at the first failed stage: in
a long environment a failed setup leaves only the environment line
(signal `NONE`, `setup = false`, no risk/reward); a passed setup with a
failed trigger leaves exactly the environment and setup lines (signal
`NONE`, `setup = true`, no risk/reward); a passed trigger appends exactly
the one trigger line; and symmetrically in a short environment. -/
theorem generate_signal_mixed_trends (df_main df_higher : List Bar)
    (current : Bar) (hl : df_main.getLast? = some current)
    (hh : df_higher ≠ []) :
    (¬ (analyze_trend df_main = TrendState.UPTREND ∧
        analyze_trend df_higher = TrendState.UPTREND) →
     ¬ (analyze_trend df_main = TrendState.DOWNTREND ∧
        analyze_trend df_higher = TrendState.DOWNTREND) →
      (generate_signal df_main df_higher).signal = SignalType.NONE ∧
      (generate_signal df_main df_higher).setup = false ∧
      (generate_signal df_main df_higher).risk_reward = none ∧
      (generate_signal df_main df_higher).details = ["△ トレンド不明確（様子見）"]) ∧
    ((check_environment df_main df_higher).1 = true →
      ((check_setup current true = false →
        (generate_signal df_main df_higher).signal = SignalType.NONE ∧
        (generate_signal df_main df_higher).setup = false ∧
        (generate_signal df_main df_higher).risk_reward = none ∧
        (generate_signal df_main df_higher).details = ["✓ 上昇トレンド環境"]) ∧
       (check_setup current true = true → (check_trigger current true).1 = false →
        (generate_signal df_main df_higher).signal = SignalType.NONE ∧
        (generate_signal df_main df_higher).setup = true ∧
        (generate_signal df_main df_higher).risk_reward = none ∧
        (generate_signal df_main df_higher).details =
          ["✓ 上昇トレンド環境", "✓ 押し目ゾーン（20EMA付近 or RSI<40）"]) ∧
       (check_setup current true = true → (check_trigger current true).1 = true →
        (generate_signal df_main df_higher).details =
          ["✓ 上昇トレンド環境", "✓ 押し目ゾーン（20EMA付近 or RSI<40）",
           "✓ トリガー発生: " ++ (check_trigger current true).2]))) ∧
    ((check_environment df_main df_higher).1 = false →
     (check_environment df_main df_higher).2.1 = true →
      ((check_setup current false = false →
        (generate_signal df_main df_higher).signal = SignalType.NONE ∧
        (generate_signal df_main df_higher).setup = false ∧
        (generate_signal df_main df_higher).risk_reward = none ∧
        (generate_signal df_main df_higher).details = ["✓ 下落トレンド環境"]) ∧
       (check_setup current false = true → (check_trigger current false).1 = false →
        (generate_signal df_main df_higher).signal = SignalType.NONE ∧
        (generate_signal df_main df_higher).setup = true ∧
        (generate_signal df_main df_higher).risk_reward = none ∧
        (generate_signal df_main df_higher).details =
          ["✓ 下落トレンド環境", "✓ 戻りゾーン（20EMA付近 or RSI>60）"]) ∧
       (check_setup current false = true → (check_trigger current false).1 = true →
        (generate_signal df_main df_higher).details =
          ["✓ 下落トレンド環境", "✓ 戻りゾーン（20EMA付近 or RSI>60）",
           "✓ トリガー発生: " ++ (check_trigger current false).2]))) := by
  have hG := generate_signal_unfold df_main df_higher current hl hh
  refine ⟨?_, ?_, ?_⟩
  · intro hnl hns
    have hlongf : (check_environment df_main df_higher).1 = false := by
      unfold check_environment
      by_cases hA : analyze_trend df_main = TrendState.UPTREND
      · by_cases hB : analyze_trend df_higher = TrendState.UPTREND
        · exact absurd ⟨hA, hB⟩ hnl
        · simp [hB]
      · simp [hA]
    have hshortf : (check_environment df_main df_higher).2.1 = false := by
      unfold check_environment
      by_cases hA : analyze_trend df_main = TrendState.DOWNTREND
      · by_cases hB : analyze_trend df_higher = TrendState.DOWNTREND
        · exact absurd ⟨hA, hB⟩ hns
        · simp [hB]
      · simp [hA]
    rw [hG, hlongf, hshortf]
    exact ⟨rfl, rfl, rfl, rfl⟩
  · intro henv
    refine ⟨?_, ?_, ?_⟩
    · intro hset
      rw [hG, henv, hset]
      exact ⟨rfl, rfl, rfl, rfl⟩
    · intro hset htrig
      rw [hG, henv, hset, htrig]
      exact ⟨rfl, rfl, rfl, rfl⟩
    · intro hset htrig
      rw [hG, henv, hset, htrig]
      rfl
  · intro henv hshort
    refine ⟨?_, ?_, ?_⟩
    · intro hset
      rw [hG, henv, hshort, hset]
      exact ⟨rfl, rfl, rfl, rfl⟩
    · intro hset htrig
      rw [hG, henv, hshort, hset, htrig]
      exact ⟨rfl, rfl, rfl, rfl⟩
    · intro hset htrig
      rw [hG, henv, hshort, hset, htrig]
      rfl

/-- Witness for C5, one concrete pair of series per stage outcome:
mixed trends (main up over `ema_200` 90, higher down under 110) leave
only the environment line; a long environment whose latest bar is far
from the 20-EMA (`ema_20_distance = 50`) with RSI 50 fails setup and
leaves only the environment checkmark; a long environment on the 20-EMA
(`ema_20_distance = 0`) but with no candle pattern fails the trigger and
leaves exactly the environment and setup checkmarks. -/
theorem generate_signal_mixed_trends_witness :
    ((generate_signal [⟨100, 101, 99, 100, none, some 90, none, none, "none", "none"⟩] [⟨100, 101, 99, 100, none, some 110, none, none, "none", "none"⟩]).signal = SignalType.NONE ∧
     (generate_signal [⟨100, 101, 99, 100, none, some 90, none, none, "none", "none"⟩] [⟨100, 101, 99, 100, none, some 110, none, none, "none", "none"⟩]).setup = false ∧
     (generate_signal [⟨100, 101, 99, 100, none, some 90, none, none, "none", "none"⟩] [⟨100, 101, 99, 100, none, some 110, none, none, "none", "none"⟩]).risk_reward = none ∧
     (generate_signal [⟨100, 101, 99, 100, none, some 90, none, none, "none", "none"⟩] [⟨100, 101, 99, 100, none, some 110, none, none, "none", "none"⟩]).details = ["△ トレンド不明確（様子見）"]) ∧
    ((generate_signal [⟨100, 101, 99, 100, some 100, some 95, some 50, some 50, "none", "none"⟩] [⟨100, 101, 99, 100, none, some 90, none, none, "none", "none"⟩]).signal = SignalType.NONE ∧
     (generate_signal [⟨100, 101, 99, 100, some 100, some 95, some 50, some 50, "none", "none"⟩] [⟨100, 101, 99, 100, none, some 90, none, none, "none", "none"⟩]).setup = false ∧
     (generate_signal [⟨100, 101, 99, 100, some 100, some 95, some 50, some 50, "none", "none"⟩] [⟨100, 101, 99, 100, none, some 90, none, none, "none", "none"⟩]).risk_reward = none ∧
     (generate_signal [⟨100, 101, 99, 100, some 100, some 95, some 50, some 50, "none", "none"⟩] [⟨100, 101, 99, 100, none, some 90, none, none, "none", "none"⟩]).details = ["✓ 上昇トレンド環境"]) ∧
    ((generate_signal [⟨100, 101, 99, 100, some 100, some 95, some 50, some 0, "none", "none"⟩] [⟨100, 101, 99, 100, none, some 90, none, none, "none", "none"⟩]).signal = SignalType.NONE ∧
     (generate_signal [⟨100, 101, 99, 100, some 100, some 95, some 50, some 0, "none", "none"⟩] [⟨100, 101, 99, 100, none, some 90, none, none, "none", "none"⟩]).setup = true ∧
     (generate_signal [⟨100, 101, 99, 100, some 100, some 95, some 50, some 0, "none", "none"⟩] [⟨100, 101, 99, 100, none, some 90, none, none, "none", "none"⟩]).risk_reward = none ∧
     (generate_signal [⟨100, 101, 99, 100, some 100, some 95, some 50, some 0, "none", "none"⟩] [⟨100, 101, 99, 100, none, some 90, none, none, "none", "none"⟩]).details =
       ["✓ 上昇トレンド環境", "✓ 押し目ゾーン（20EMA付近 or RSI<40）"]) := by
  refine ⟨?_, ?_, ?_⟩
  · apply (generate_signal_mixed_trends [⟨100, 101, 99, 100, none, some 90, none, none, "none", "none"⟩] [⟨100, 101, 99, 100, none, some 110, none, none, "none", "none"⟩]
      ⟨100, 101, 99, 100, none, some 90, none, none, "none", "none"⟩ rfl (by simp)).1
    · rintro ⟨-, hB2⟩
      rw [analyze_trend_down [⟨100, 101, 99, 100, none, some 110, none, none, "none", "none"⟩]
        ⟨100, 101, 99, 100, none, some 110, none, none, "none", "none"⟩ 110 rfl rfl (by norm_num)] at hB2
      exact absurd hB2 (by decide)
    · rintro ⟨hA2, -⟩
      rw [analyze_trend_up [⟨100, 101, 99, 100, none, some 90, none, none, "none", "none"⟩]
        ⟨100, 101, 99, 100, none, some 90, none, none, "none", "none"⟩ 90 rfl rfl (by norm_num)] at hA2
      exact absurd hA2 (by decide)
  · exact ((generate_signal_mixed_trends [⟨100, 101, 99, 100, some 100, some 95, some 50, some 50, "none", "none"⟩] [⟨100, 101, 99, 100, none, some 90, none, none, "none", "none"⟩]
      ⟨100, 101, 99, 100, some 100, some 95, some 50, some 50, "none", "none"⟩ rfl (by simp)).2.1 (by decide)).1 (by decide)
  · exact (((generate_signal_mixed_trends [⟨100, 101, 99, 100, some 100, some 95, some 50, some 0, "none", "none"⟩] [⟨100, 101, 99, 100, none, some 90, none, none, "none", "none"⟩]
      ⟨100, 101, 99, 100, some 100, some 95, some 50, some 0, "none", "none"⟩ rfl (by simp)).2.1 (by decide)).2.1 (by decide) (by decide))

/-- C1: with both series non-empty and both latest closes strictly above
their `ema_200` (both trends uptrend), the main latest bar labelled
`bullish_pin` and its close within 1% of `ema_20`
(`|ema_20_distance| ≤ 1`), `generate_signal` returns signal `LONG`, the
pin-bar trigger label, and a non-null risk/reward whose
`take_profit - entry = 2 * (entry - stop_loss)` at the default ratio 2. -/
theorem generate_signal_long_pin
    (df_main df_higher : List Bar) (m b : Bar) (em eb d : ℚ)
    (hm : df_main.getLast? = some m) (hb : df_higher.getLast? = some b)
    (hm200 : m.ema_200 = some em) (hmup : em < m.close)
    (hb200 : b.ema_200 = some eb) (hbup : eb < b.close)
    (hpin : m.pin_bar = "bullish_pin")
    (hdist : m.ema_20_distance = some d) (hd : |d| ≤ 1) :
    (generate_signal df_main df_higher).signal = SignalType.LONG ∧
    (generate_signal df_main df_higher).trigger = "下ヒゲピンバー" ∧
    ∃ rr : RiskReward,
      (generate_signal df_main df_higher).risk_reward = some rr ∧
      rr.take_profit - rr.entry = 2 * (rr.entry - rr.stop_loss) := by
  have hmn : df_main ≠ [] := by
    intro h0
    rw [h0] at hm
    cases hm
  have hbn : df_higher ≠ [] := by
    intro h0
    rw [h0] at hb
    cases hb
  have hcond : ¬ (df_main = [] ∨ df_higher = []) := by
    rintro (h0 | h0)
    · exact hmn h0
    · exact hbn h0
  have henv1 : (check_environment df_main df_higher).1 = true := by
    unfold check_environment
    simp [analyze_trend_up df_main m em hm hm200 hmup,
      analyze_trend_up df_higher b eb hb hb200 hbup]
  have hsetup : check_setup m true = true := by
    unfold check_setup is_near_ema20
    rw [hdist]
    simp [hd]
  have htrig : check_trigger m true = (true, "下ヒゲピンバー") := by
    unfold check_trigger
    rw [hpin]
    simp
  have hres : generate_signal df_main df_higher =
      ⟨SignalType.LONG, (check_environment df_main df_higher).2.2, true,
       "下ヒゲピンバー", calculate_risk_reward df_main true 10 2,
       "🟢 買いシグナル点灯",
       ["✓ 上昇トレンド環境", "✓ 押し目ゾーン（20EMA付近 or RSI<40）",
        "✓ トリガー発生: 下ヒゲピンバー"]⟩ := by
    unfold generate_signal
    rw [if_neg hcond, hm]
    simp [henv1, hsetup, htrig]
  obtain ⟨rr, hrr, hre, hmem, hbound, htp, habs, hlow⟩ :=
    calculate_risk_reward_long_spec df_main 10 2 m hm (by norm_num)
  refine ⟨by rw [hres], by rw [hres], rr, ?_, ?_⟩
  · rw [hres]
    exact hrr
  · rw [htp]
    ring

/-- Witness for C1: a one-bar main series whose bar closes at 100 above
`ema_200` 95, carries the `bullish_pin` label and sits exactly on its
20-EMA (`ema_20_distance = 0`), with a one-bar higher series closing at
100 above `ema_200` 90. -/
theorem generate_signal_long_pin_witness :
    (generate_signal
      [⟨99, 100, 94, 100, some 100, some 95, some 50, some 0, "bullish_pin", "none"⟩]
      [⟨100, 101, 99, 100, none, some 90, none, none, "none", "none"⟩]).signal =
        SignalType.LONG ∧
    (generate_signal
      [⟨99, 100, 94, 100, some 100, some 95, some 50, some 0, "bullish_pin", "none"⟩]
      [⟨100, 101, 99, 100, none, some 90, none, none, "none", "none"⟩]).trigger =
        "下ヒゲピンバー" ∧
    ∃ rr : RiskReward,
      (generate_signal
        [⟨99, 100, 94, 100, some 100, some 95, some 50, some 0, "bullish_pin", "none"⟩]
        [⟨100, 101, 99, 100, none, some 90, none, none, "none", "none"⟩]).risk_reward =
          some rr ∧
      rr.take_profit - rr.entry = 2 * (rr.entry - rr.stop_loss) :=
  generate_signal_long_pin
    [⟨99, 100, 94, 100, some 100, some 95, some 50, some 0, "bullish_pin", "none"⟩]
    [⟨100, 101, 99, 100, none, some 90, none, none, "none", "none"⟩]
    ⟨99, 100, 94, 100, some 100, some 95, some 50, some 0, "bullish_pin", "none"⟩
    ⟨100, 101, 99, 100, none, some 90, none, none, "none", "none"⟩
    95 90 0 rfl rfl rfl (by norm_num) rfl (by norm_num) rfl rfl (by norm_num)
